import Mathlib

/-!
# Verification of the did-siop library core

A shallow embedding of the key-extraction chain (`src/core/did/key-extractors`),
the combined DID resolver (`src/core/Identity/Resolvers/index.ts`) and the
`Provider` class (`src/core/provider`), together with proofs of the spec's
claims about them.

TypeScript exceptions are modelled with `Except Err`; each `Err` constructor
corresponds to one entry of the library's `ERRORS` catalogues.  Optional
string-valued fields are `Option String`, and JavaScript truthiness of such a
field (`undefined`, `null` and `""` are falsy) is the `truthy` predicate.
External collaborators that live outside the core source (the
`ethereum-checksum-address` package, the `getKeyType`/`getAlgorithm` helpers of
`Utils`, the cryptographic key constructors and `checkKeyPair`, and the
individual DID resolvers) are parameters of the embedding, so every theorem
quantifies over their behaviour.
-/

namespace DidSiop

/-- Key families, from `src/core/globals.ts` (not part of the provided core
sources).  Modelled from the spec: `keyFamily ∈ {RSA, EC, OKP}` plus the
extra member `oct` that makes the `default` branch of `addSigningParams`'s
`switch` reachable ("a document key whose key type is not RSA, EC, or OKP"). -/
inductive KTYS where
  | RSA | EC | OKP | oct
deriving DecidableEq, Repr

/-- JOSE algorithm identifiers, from `src/core/globals.ts` (not part of the
provided core sources).  Modelled from the spec's list of supported
algorithms; `ES256K_R` is the member the source spells `"ES256K-R"`. -/
inductive ALGORITHMS where
  | RS256 | RS384 | RS512
  | PS256 | PS384 | PS512
  | ES256 | ES384 | ES512
  | ES256K | ES256K_R | EdDSA
deriving DecidableEq, Repr

/-- Key encoding formats, from `src/core/globals.ts` (not part of the provided
core sources).  Modelled from the spec's data model:
`format ∈ {PKCS8_PEM, PKCS1_PEM, HEX, BASE58, BASE64, JWK, ETHEREUM_ADDRESS,
ADDRESS}`, in the declaration order the spec's §4.4 trial loop relies on.
The spec treats these as symbolic tags, so an assigned format is always
truthy in the embedding. -/
inductive KEY_FORMATS where
  | PKCS8_PEM | PKCS1_PEM | HEX | BASE58 | BASE64 | JWK | ETHEREUM_ADDRESS | ADDRESS
deriving DecidableEq, Repr

/-- The declaration-order list of all key formats, as iterated by
`for (let key_format in KEY_FORMATS)` in `Provider.addSigningParams`. -/
def keyFormatsList : List KEY_FORMATS :=
  [.PKCS8_PEM, .PKCS1_PEM, .HEX, .BASE58, .BASE64, .JWK, .ETHEREUM_ADDRESS, .ADDRESS]

/-- The error catalogue.  Each constructor names one `ERRORS` entry thrown by
the embedded code: the first three from the key-extractor module's `ERRORS`
(`commons`), `DOCUMENT_RESOLUTION_ERROR` from the Identity module's `ERRORS`,
and the last three from `Provider`'s own `ERRORS` object (`NO_PUBLIC_KEY` is
the message "No public key matches given private key"). -/
inductive Err where
  | UNSUPPORTED_PUBLIC_KEY_METHOD
  | NO_MATCHING_PUBLIC_KEY
  | UNSUPPORTED_KEY_FORMAT
  | DOCUMENT_RESOLUTION_ERROR
  | NO_SIGNING_INFO
  | UNRESOLVED_IDENTITY
  | NO_PUBLIC_KEY
deriving DecidableEq, Repr

/-- JavaScript truthiness of an optional string field: `undefined` and the
empty string are falsy. -/
def truthy : Option String → Bool
  | none => false
  | some s => !s.isEmpty

/-- An embedded JWK value (`publicKeyJwk`).  Only the `kty` and `alg` members
are inspected by the core (`JwsVerificationKey2020Extractor`). -/
structure JWK where
  kty : String
  alg : Option String
deriving DecidableEq, Repr

/-- The value stored in a `DidVerificationKey`'s `publicKey` slot: a string, an
embedded JWK object, or JavaScript `undefined` (the result of reading an
absent field, as in the `publicKeyPgp` branch of
`getVerificationKeyFromDifferentFormats`). -/
inductive PKValue where
  | str (v : String)
  | jwk (j : JWK)
  | undef
deriving DecidableEq, Repr

/-- JavaScript truthiness of a `publicKey` slot: an object is truthy, a string
is truthy iff non-empty, `undefined` is falsy. -/
def PKValue.truthy : PKValue → Bool
  | .str v => !v.isEmpty
  | .jwk _ => true
  | .undef => false

/-- `DidVerificationKeyMethod` (a raw verification method from a DID
document), from the key-extractor module.  All public-key encoding fields the
extractor code reads are present as optional fields. -/
structure DidVerificationKeyMethod where
  id : Option String := none
  type : Option String := none
  publicKeyJwk : Option JWK := none
  publicKeyHex : Option String := none
  publicKeyBase58 : Option String := none
  publicKeyBase64 : Option String := none
  publicKeyPem : Option String := none
  publicKeyPgp : Option String := none
  publicKeyGpg : Option String := none
  ethereumAddress : Option String := none
  address : Option String := none
deriving DecidableEq, Repr

/-- `DidVerificationKey`: the canonical key descriptor produced by the
extraction chain. -/
structure DidVerificationKey where
  id : String
  kty : KTYS
  alg : ALGORITHMS
  format : KEY_FORMATS
  publicKey : PKValue
deriving DecidableEq, Repr

/-- External collaborators used by the extraction chain, all outside the
provided core sources: `toChecksumAddress` from the
`ethereum-checksum-address` package, and `getKeyType` / `getAlgorithm` from
`Utils` (which may fail on unrecognised strings). -/
structure ExtractorEnv where
  toChecksumAddress : String → String
  getKeyType : String → Except Err KTYS
  getAlgorithm : Option String → Except Err ALGORITHMS

/-- `getVerificationKeyFromDifferentFormats`: probes the method's encoding
fields in the source's fixed order and fills the holder's `format` and
`publicKey`.  Note the source's `publicKeyPgp` branch assigns
`method.publicKeyGpg` (not `method.publicKeyPgp`); the final guard
`if(holder.format && holder.publicKey)` is modelled as the truthiness of
`publicKey` alone, the format tag being symbolic (always set). -/
def getVerificationKeyFromDifferentFormats (env : ExtractorEnv)
    (method : DidVerificationKeyMethod) (holder : DidVerificationKey) :
    Except Err DidVerificationKey :=
  let filled : Except Err DidVerificationKey :=
    match method.publicKeyJwk with
    | some j => .ok { holder with format := .JWK, publicKey := .jwk j }
    | none =>
      if truthy method.publicKeyHex then
        .ok { holder with format := .HEX, publicKey := .str (method.publicKeyHex.getD "") }
      else if truthy method.publicKeyBase58 then
        .ok { holder with format := .BASE58, publicKey := .str (method.publicKeyBase58.getD "") }
      else if truthy method.publicKeyBase64 then
        .ok { holder with format := .BASE64, publicKey := .str (method.publicKeyBase64.getD "") }
      else if truthy method.publicKeyPem then
        .ok { holder with format := .PKCS8_PEM, publicKey := .str (method.publicKeyPem.getD "") }
      else if truthy method.publicKeyPgp then
        .ok { holder with
                format := .PKCS8_PEM,
                publicKey := (match method.publicKeyGpg with
                              | some g => .str g
                              | none => .undef) }
      else if truthy method.ethereumAddress then
        .ok { holder with
                format := .ETHEREUM_ADDRESS,
                publicKey := .str (env.toChecksumAddress (method.ethereumAddress.getD "")) }
      else if truthy method.address then
        .ok { holder with format := .ADDRESS, publicKey := .str (method.address.getD "") }
      else
        .error .UNSUPPORTED_KEY_FORMAT
  match filled with
  | .ok h => if h.publicKey.truthy then .ok h else .error .UNSUPPORTED_KEY_FORMAT
  | .error e => .error e

/-- The guard shared by every concrete extractor:
`if (!method || !method.id || !method.type) throw NO_MATCHING_PUBLIC_KEY`. -/
def methodGuardOk (method : DidVerificationKeyMethod) : Bool :=
  truthy method.id && truthy method.type

/-- ASCII uppercase of one character, modelling
`String.prototype.toUpperCase()` on the ASCII suite names the chain
compares. -/
def asciiUpper (c : Char) : Char :=
  if 97 ≤ c.toNat ∧ c.toNat ≤ 122 then Char.ofNat (c.toNat - 32) else c

/-- ASCII uppercase of a string (`name.toUpperCase()`). -/
def strUpper (s : String) : String :=
  ⟨s.data.map asciiUpper⟩

/-- The method's `type` tag uppercased, as compared against each extractor's
(uppercased) name list. -/
def typeTag (method : DidVerificationKeyMethod) : String :=
  strUpper (method.type.getD "")

/-- `EmptyDidVerificationKeyExtractor.extract`: the terminal handler. -/
def emptyExtract (_method : DidVerificationKeyMethod) : Except Err DidVerificationKey :=
  .error .UNSUPPORTED_PUBLIC_KEY_METHOD

/-- `JwsVerificationKey2020Extractor.extract` (names: JwsVerificationKey2020). -/
def jwsVerificationKey2020Extract (env : ExtractorEnv)
    (method : DidVerificationKeyMethod) : Except Err DidVerificationKey :=
  if !methodGuardOk method then .error .NO_MATCHING_PUBLIC_KEY
  else if ["JWSVERIFICATIONKEY2020"].contains (typeTag method) then
    match method.publicKeyJwk with
    | some j => do
        let kty ← env.getKeyType j.kty
        let alg ← env.getAlgorithm j.alg
        .ok { id := method.id.getD "", kty := kty, alg := alg,
              format := .JWK, publicKey := .jwk j }
    | none => .error .UNSUPPORTED_PUBLIC_KEY_METHOD
  else emptyExtract method

/-- `Ed25519VerificationKeyExtractor.extract`
(names: Ed25519VerificationKey2018, ED25519SignatureVerification). -/
def ed25519VerificationKeyExtract (env : ExtractorEnv)
    (method : DidVerificationKeyMethod) : Except Err DidVerificationKey :=
  if !methodGuardOk method then .error .NO_MATCHING_PUBLIC_KEY
  else if ["ED25519VERIFICATIONKEY2018", "ED25519SIGNATUREVERIFICATION"].contains
      (typeTag method) then
    getVerificationKeyFromDifferentFormats env method
      { id := method.id.getD "", kty := .OKP, alg := .EdDSA,
        format := .HEX, publicKey := .str "" }
  else jwsVerificationKey2020Extract env method

/-- `GpgVerificationKey2020Extractor.extract` (names: GpgVerificationKey2020). -/
def gpgVerificationKey2020Extract (env : ExtractorEnv)
    (method : DidVerificationKeyMethod) : Except Err DidVerificationKey :=
  if !methodGuardOk method then .error .NO_MATCHING_PUBLIC_KEY
  else if ["GPGVERIFICATIONKEY2020"].contains (typeTag method) then
    match method.publicKeyGpg with
    | some g =>
        if g.isEmpty then .error .UNSUPPORTED_PUBLIC_KEY_METHOD
        else .ok { id := method.id.getD "", kty := .RSA, alg := .RS256,
                   format := .PKCS8_PEM, publicKey := .str g }
    | none => .error .UNSUPPORTED_PUBLIC_KEY_METHOD
  else ed25519VerificationKeyExtract env method

/-- `RsaVerificationKeyExtractor.extract` (names: RsaVerificationKey2018). -/
def rsaVerificationKeyExtract (env : ExtractorEnv)
    (method : DidVerificationKeyMethod) : Except Err DidVerificationKey :=
  if !methodGuardOk method then .error .NO_MATCHING_PUBLIC_KEY
  else if ["RSAVERIFICATIONKEY2018"].contains (typeTag method) then
    getVerificationKeyFromDifferentFormats env method
      { id := method.id.getD "", kty := .RSA, alg := .RS256,
        format := .HEX, publicKey := .str "" }
  else gpgVerificationKey2020Extract env method

/-- `EcdsaSecp256k1VerificationKeyExtractor.extract`
(names: EcdsaSecp256k1VerificationKey2019, Secp256k1VerificationKey2018,
Secp256k1). -/
def ecdsaSecp256k1VerificationKeyExtract (env : ExtractorEnv)
    (method : DidVerificationKeyMethod) : Except Err DidVerificationKey :=
  if !methodGuardOk method then .error .NO_MATCHING_PUBLIC_KEY
  else if ["ECDSASECP256K1VERIFICATIONKEY2019", "SECP256K1VERIFICATIONKEY2018",
      "SECP256K1"].contains (typeTag method) then
    getVerificationKeyFromDifferentFormats env method
      { id := method.id.getD "", kty := .EC, alg := .ES256K,
        format := .HEX, publicKey := .str "" }
  else rsaVerificationKeyExtract env method

/-- `EcdsaSecp256r1VerificationKey2019Extractor.extract`
(names: EcdsaSecp256r1VerificationKey2019). -/
def ecdsaSecp256r1VerificationKey2019Extract (env : ExtractorEnv)
    (method : DidVerificationKeyMethod) : Except Err DidVerificationKey :=
  if !methodGuardOk method then .error .NO_MATCHING_PUBLIC_KEY
  else if ["ECDSASECP256R1VERIFICATIONKEY2019"].contains (typeTag method) then
    getVerificationKeyFromDifferentFormats env method
      { id := method.id.getD "", kty := .EC, alg := .ES256,
        format := .HEX, publicKey := .str "" }
  else ecdsaSecp256k1VerificationKeyExtract env method

/-- `EcdsaSecp256k1RecoveryMethod2020Extractor.extract`
(names: EcdsaSecp256k1RecoveryMethod2020); matches on the type tag **or** the
presence of a truthy `ethereumAddress` field. -/
def ecdsaSecp256k1RecoveryMethod2020Extract (env : ExtractorEnv)
    (method : DidVerificationKeyMethod) : Except Err DidVerificationKey :=
  if !methodGuardOk method then .error .NO_MATCHING_PUBLIC_KEY
  else if ["ECDSASECP256K1RECOVERYMETHOD2020"].contains (typeTag method)
      || truthy method.ethereumAddress then
    getVerificationKeyFromDifferentFormats env method
      { id := method.id.getD "", kty := .EC, alg := .ES256K_R,
        format := .HEX, publicKey := .str "" }
  else ecdsaSecp256r1VerificationKey2019Extract env method

/-- `uniExtractor.extract`: the `UniversalDidPublicKeyExtractor` has the empty
name list and immediately delegates to the recoverable handler, the head of
the chain. -/
def uniExtract (env : ExtractorEnv) (method : DidVerificationKeyMethod) :
    Except Err DidVerificationKey :=
  ecdsaSecp256k1RecoveryMethod2020Extract env method

/-! ## Identity resolution: `CombinedDidResolver` -/

/-- A DID document, per the spec's data model: a DID string `id`, the list of
verification methods, and the `authentication` references.  The combined
resolver treats the document as an opaque truthy value. -/
structure DidDocument where
  id : String
  verificationMethod : List DidVerificationKeyMethod := []
  authentication : List String := []
deriving DecidableEq, Repr

/-- The outcome of one external resolver's `resolve(did)` call: it may throw,
return a falsy value (`undefined`/`null`), or return a document. -/
inductive ResolverOutcome where
  | err
  | empty
  | doc (d : DidDocument)
deriving DecidableEq, Repr

/-- An external DID resolver collaborator, modelled by its behaviour on each
DID (resolvers are out of core scope; the engine treats them uniformly). -/
def DidResolverFn : Type := String → ResolverOutcome

/-- Whether an outcome delivered a (truthy) document. -/
def ResolverOutcome.returnsDoc : ResolverOutcome → Bool
  | .doc _ => true
  | _ => false

/-- The `for(let resolver of this.resolvers)` loop of
`CombinedDidResolver.resolveDidDocumet`: thrown errors and falsy documents
are skipped (`continue`), the first truthy document is returned, and the
exhausted chain throws `DOCUMENT_RESOLUTION_ERROR`. -/
def resolveChain (did : String) : List DidResolverFn → Except Err DidDocument
  | [] => .error .DOCUMENT_RESOLUTION_ERROR
  | r :: rest =>
    match r did with
    | .doc d => .ok d
    | _ => resolveChain did rest

/-- `CombinedDidResolver.resolveDidDocumet`: when the configured resolver list
is empty a `UniversalDidResolver` instance (the external collaborator `uni`)
is appended before the loop runs. -/
def resolveDidDocumet (uni : DidResolverFn) (resolvers : List DidResolverFn)
    (did : String) : Except Err DidDocument :=
  let rs := if resolvers.isEmpty then resolvers.concat uni else resolvers
  resolveChain did rs

/-! ## `Provider`: signing-params matching, key removal, response guards -/

/-- `SigningInfo`: one entry of the provider's `signing_info_set`. -/
structure SigningInfo where
  alg : ALGORITHMS
  kid : String
  key : String
  format : KEY_FORMATS
deriving DecidableEq, Repr

/-- The mutable state of a `Provider` instance that the claims concern: its
`signing_info_set` and whether its `Identity` is resolved
(`identity.isResolved()`). -/
structure ProviderState where
  signing_info_set : List SigningInfo
  resolved : Bool
deriving DecidableEq, Repr

/-- The outcome of one `(document key, key format)` trial combination in
`addSigningParams`: the key constructors (`RSAKey.fromKey` …) or
`checkKeyPair` may throw, or `checkKeyPair` may answer `false` or `true`. -/
inductive TrialOutcome where
  | threw
  | mismatch
  | matched
deriving DecidableEq, Repr

/-- External collaborators of `addSigningParams`, all outside the provided
core sources: the multibase helpers of `utils`, and the key
construction + `checkKeyPair` trial for a given private key, document key and
trial format (§4.2 of the spec: sign a probe message and verify it). -/
structure CryptoEnv where
  isMultibasePvtKey : String → Bool
  getBase58fromMultibase : String → String
  trial : String → DidVerificationKey → KEY_FORMATS → TrialOutcome

/-- The multibase normalisation performed at the top of `addSigningParams`:
`if (isMultibasePvtKey(key)) key = getBase58fromMultibase(key)`. -/
def normalizeKey (env : CryptoEnv) (key : String) : String :=
  if env.isMultibasePvtKey key then env.getBase58fromMultibase key else key

/-- One iteration of the inner format loop of `addSigningParams`: the `switch`
on the document key's `kty` skips (`continue`) any family other than RSA, EC
and OKP before any key is constructed; for the three supported families the
construction and `checkKeyPair` run inside `try`, so a thrown error
(`TrialOutcome.threw`) and a `false` answer both move on; a `true` answer
builds the `SigningInfo` that the source pushes: the document key's `alg` and
`id`, the caller's (normalised) private key string, and the trial format. -/
def tryCombination (env : CryptoEnv) (key : String) (k : DidVerificationKey)
    (f : KEY_FORMATS) : Option SigningInfo :=
  match k.kty with
  | .RSA | .EC | .OKP =>
    match env.trial key k f with
    | .matched => some { alg := k.alg, kid := k.id, key := key, format := f }
    | _ => none
  | .oct => none

/-- The inner loop of `addSigningParams`: try every key format in declaration
order for one document key; first success wins. -/
def firstFormatMatch (env : CryptoEnv) (key : String) (k : DidVerificationKey) :
    List KEY_FORMATS → Option SigningInfo
  | [] => none
  | f :: rest =>
    match tryCombination env key k f with
    | some si => some si
    | none => firstFormatMatch env key k rest

/-- Whether one document key matches the private key under some format, and
with which resulting `SigningInfo`. -/
def keyMatches (env : CryptoEnv) (key : String) (k : DidVerificationKey) :
    Option SigningInfo :=
  firstFormatMatch env key k keyFormatsList

/-- The outer loop of `addSigningParams`: document keys in document order. -/
def findMatch (env : CryptoEnv) (key : String) :
    List DidVerificationKey → Option SigningInfo
  | [] => none
  | k :: rest =>
    match keyMatches env key k with
    | some si => some si
    | none => findMatch env key rest

/-- `Provider.addSigningParams`.  `didPublicKeySet` is the result of
`this.identity.extractAuthenticationKeys()`; that method lives in
`identity.ts`, which is outside the provided core sources, so it is modelled
from the spec: the `CanonicalKey`s extracted (§4.1) from the resolved
document's authentication methods, in document order, passed here as a
parameter.  The function returns the thrown error or the returned `kid`,
together with the provider state after the call: the only mutation in the
source is the single `push` onto `signing_info_set` on success. -/
def addSigningParams (env : CryptoEnv) (didPublicKeySet : List DidVerificationKey)
    (st : ProviderState) (key : String) : Except Err String × ProviderState :=
  let nk := normalizeKey env key
  match findMatch env nk didPublicKeySet with
  | some si =>
    (.ok si.kid, { st with signing_info_set := st.signing_info_set.concat si })
  | none => (.error .NO_PUBLIC_KEY, st)

/-- `Provider.removeSigningParams`:
`this.signing_info_set = this.signing_info_set.filter(s => s.kid !== kid)`. -/
def removeSigningParams (st : ProviderState) (kid : String) : ProviderState :=
  { st with signing_info_set := st.signing_info_set.filter (fun s => s.kid ≠ kid) }

/-- `VPData`: the data for the `vp_token` and for the `_vp_token` claim sent
inside the id_token (the second field models `_vp_token`, whose name cannot
start with an underscore in Lean). -/
structure VPData where
  vp_token : String
  vpTokenInfo : String
deriving DecidableEq, Repr

/-- `Provider.generateResponse`, reduced to the state it inspects: the guard
order of the source checks `signing_info_set.length > 0` first
(`NO_SIGNING_INFO` otherwise) and `identity.isResolved()` second
(`UNRESOLVED_IDENTITY` otherwise).  The random draw
`Math.floor(Math.random() * length)`, which lands in `[0, length)`, is
modelled by `pick % length` for an arbitrary `pick : Nat`.  The downstream
`DidSiopResponse.generateResponse` call is outside the provided core
sources, so the model returns the selected `SigningInfo` the source would
sign with. -/
def generateResponse (st : ProviderState) (pick : Nat) : Except Err SigningInfo :=
  if h : 0 < st.signing_info_set.length then
    let si := st.signing_info_set.get ⟨pick % st.signing_info_set.length, Nat.mod_lt _ h⟩
    if st.resolved then .ok si else .error .UNRESOLVED_IDENTITY
  else .error .NO_SIGNING_INFO

/-- `Provider.generateResponseWithVPData`: identical guards and key selection
as `generateResponse`; the model returns the selected `SigningInfo` paired
with the `vps` data handed to the (out-of-source) response builder. -/
def generateResponseWithVPData (st : ProviderState) (pick : Nat) (vps : VPData) :
    Except Err (SigningInfo × VPData) :=
  if h : 0 < st.signing_info_set.length then
    let si := st.signing_info_set.get ⟨pick % st.signing_info_set.length, Nat.mod_lt _ h⟩
    if st.resolved then .ok (si, vps) else .error .UNRESOLVED_IDENTITY
  else .error .NO_SIGNING_INFO

/-- `env` with every throwing trial combination downgraded to a plain
`checkKeyPair = false` answer; used to state that a thrown error inside one
trial combination is indistinguishable from a failed match. -/
def demoteThrew (env : CryptoEnv) : CryptoEnv :=
  { env with
      trial := fun key k f =>
        match env.trial key k f with
        | .threw => .mismatch
        | o => o }

/-- Every (uppercased) handler name in the extraction chain, in chain order:
the type tags some handler of the chain recognises. -/
def allHandlerNames : List String :=
  ["ECDSASECP256K1RECOVERYMETHOD2020",
   "ECDSASECP256R1VERIFICATIONKEY2019",
   "ECDSASECP256K1VERIFICATIONKEY2019", "SECP256K1VERIFICATIONKEY2018", "SECP256K1",
   "RSAVERIFICATIONKEY2018",
   "GPGVERIFICATIONKEY2020",
   "ED25519VERIFICATIONKEY2018", "ED25519SIGNATUREVERIFICATION",
   "JWSVERIFICATIONKEY2020"]

/-- A concrete instantiation of the extraction chain's external collaborators,
used to exercise the theorems on concrete verification methods. -/
def envX : ExtractorEnv :=
  { toChecksumAddress := fun _ => "0xF3beAC30C498D9E26865F34fCAa57dBB935b0D74",
    getKeyType := fun _ => .ok .RSA,
    getAlgorithm := fun _ => .ok .RS256 }

/-- A concrete verification method whose declared type names the Ed25519
suite but which carries an Ethereum address as its populated encoding
field. -/
def mEthOverride : DidVerificationKeyMethod :=
  { id := some "did:example:eth#owner",
    type := some "Ed25519VerificationKey2018",
    ethereumAddress := some "0xf3beac30c498d9e26865f34fcaa57dbb935b0d74" }

/-- A concrete verification method accepted by the RSA type handler whose only
populated encoding field is the PGP one (`publicKeyPgp`). -/
def mPgpOnly : DidVerificationKeyMethod :=
  { id := some "did:example:pgp#key-1",
    type := some "RsaVerificationKey2018",
    publicKeyPgp := some "-----BEGIN PGP PUBLIC KEY BLOCK-----" }

/-- A concrete verification method matching no handler: unrecognised type tag
and no Ethereum address. -/
def mNoHandler : DidVerificationKeyMethod :=
  { id := some "did:example:nh#key-1",
    type := some "SchnorrSecp256k1VerificationKey2019",
    publicKeyHex := some "02717f85e6e261b5d1dcff0ea25fcd03f57e727458cc4a7ba297d3a1b1b2a00b25" }

/-- A concrete verification method missing its `type` tag. -/
def mNoType : DidVerificationKeyMethod :=
  { id := some "did:example:nt#key-1",
    publicKeyHex := some "02717f85e6e261b5d1dcff0ea25fcd03f57e727458cc4a7ba297d3a1b1b2a00b25" }

/-! ## Theorems: key extraction (C1, C4, C6) -/

/-- C1.  A verification method (well-formed per the data model: `id` and
`type` populated, the Ethereum address its one populated encoding field) is
classified with algorithm ES256K-R by the extraction chain, whatever its
declared `type` tag: the recoverable handler heads the chain and matches on
the address field alone. -/
theorem ethereumAddress_always_ES256K_R (env : ExtractorEnv)
    (m : DidVerificationKeyMethod)
    (hid : truthy m.id = true) (hty : truthy m.type = true)
    (heth : truthy m.ethereumAddress = true)
    (hjwk : m.publicKeyJwk = none)
    (hhex : truthy m.publicKeyHex = false)
    (hb58 : truthy m.publicKeyBase58 = false)
    (hb64 : truthy m.publicKeyBase64 = false)
    (hpem : truthy m.publicKeyPem = false)
    (hpgp : truthy m.publicKeyPgp = false)
    (hcs : ∀ s, (env.toChecksumAddress s).isEmpty = false) :
    uniExtract env m =
      .ok { id := m.id.getD "", kty := .EC, alg := .ES256K_R,
            format := .ETHEREUM_ADDRESS,
            publicKey := .str (env.toChecksumAddress (m.ethereumAddress.getD "")) } := by
  simp [uniExtract, ecdsaSecp256k1RecoveryMethod2020Extract, methodGuardOk,
    getVerificationKeyFromDifferentFormats, PKValue.truthy,
    hid, hty, heth, hjwk, hhex, hb58, hb64, hpem, hpgp, hcs]

/-- Witness for C1: the concrete method `mEthOverride` declares the Ed25519
suite yet is classified ES256K-R. -/
theorem ethereumAddress_always_ES256K_R_witness :
    uniExtract envX mEthOverride =
      .ok { id := "did:example:eth#owner", kty := .EC, alg := .ES256K_R,
            format := .ETHEREUM_ADDRESS,
            publicKey := .str "0xF3beAC30C498D9E26865F34fCAa57dBB935b0D74" } :=
  ethereumAddress_always_ES256K_R envX mEthOverride
    rfl rfl rfl rfl rfl rfl rfl rfl rfl (fun _ => rfl)

/-- C4 (failing input).  A method accepted by the RSA type handler whose one
populated encoding field is `publicKeyPgp` fails with
`UNSUPPORTED_KEY_FORMAT`: the probe tests `method.publicKeyPgp` but copies
`method.publicKeyGpg` into the holder, so the holder's public key is left
undefined and the final guard rejects it. -/
theorem pgp_probe_reads_gpg_field :
    uniExtract envX mPgpOnly = .error .UNSUPPORTED_KEY_FORMAT := by
  rfl

/-- C6.  The extraction chain fails with `NO_MATCHING_PUBLIC_KEY` whenever the
method is missing its `id` or its `type` (both checked by the first concrete
handler), and with `UNSUPPORTED_PUBLIC_KEY_METHOD` when the method's type tag
is recognised by no handler and the method carries no Ethereum address (the
terminal empty extractor). -/
theorem extract_missing_fields_and_no_handler (env : ExtractorEnv)
    (m : DidVerificationKeyMethod) :
    ((truthy m.id = false ∨ truthy m.type = false) →
       uniExtract env m = .error .NO_MATCHING_PUBLIC_KEY)
    ∧ (methodGuardOk m = true →
       (∀ n ∈ allHandlerNames, typeTag m ≠ n) →
       truthy m.ethereumAddress = false →
       uniExtract env m = .error .UNSUPPORTED_PUBLIC_KEY_METHOD) := by
  constructor
  · intro h
    have hg : methodGuardOk m = false := by
      cases h with
      | inl h => simp [methodGuardOk, h]
      | inr h => simp [methodGuardOk, h]
    simp [uniExtract, ecdsaSecp256k1RecoveryMethod2020Extract, hg]
  · intro hg hn heth
    have hrec := hn "ECDSASECP256K1RECOVERYMETHOD2020" (by simp [allHandlerNames])
    have hr1 := hn "ECDSASECP256R1VERIFICATIONKEY2019" (by simp [allHandlerNames])
    have hk1a := hn "ECDSASECP256K1VERIFICATIONKEY2019" (by simp [allHandlerNames])
    have hk1b := hn "SECP256K1VERIFICATIONKEY2018" (by simp [allHandlerNames])
    have hk1c := hn "SECP256K1" (by simp [allHandlerNames])
    have hrsa := hn "RSAVERIFICATIONKEY2018" (by simp [allHandlerNames])
    have hgpg := hn "GPGVERIFICATIONKEY2020" (by simp [allHandlerNames])
    have heda := hn "ED25519VERIFICATIONKEY2018" (by simp [allHandlerNames])
    have hedb := hn "ED25519SIGNATUREVERIFICATION" (by simp [allHandlerNames])
    have hjws := hn "JWSVERIFICATIONKEY2020" (by simp [allHandlerNames])
    simp [uniExtract, ecdsaSecp256k1RecoveryMethod2020Extract,
      ecdsaSecp256r1VerificationKey2019Extract, ecdsaSecp256k1VerificationKeyExtract,
      rsaVerificationKeyExtract, gpgVerificationKey2020Extract,
      ed25519VerificationKeyExtract, jwsVerificationKey2020Extract, emptyExtract,
      hg, heth, hrec, hr1, hk1a, hk1b, hk1c, hrsa, hgpg, heda, hedb, hjws]

/-- Witness for C6: a method with no type tag fails `NO_MATCHING_PUBLIC_KEY`;
a method whose tag no handler recognises fails
`UNSUPPORTED_PUBLIC_KEY_METHOD`. -/
theorem extract_missing_fields_and_no_handler_witness :
    uniExtract envX mNoType = .error .NO_MATCHING_PUBLIC_KEY
    ∧ uniExtract envX mNoHandler = .error .UNSUPPORTED_PUBLIC_KEY_METHOD :=
  ⟨(extract_missing_fields_and_no_handler envX mNoType).1 (Or.inr rfl),
   (extract_missing_fields_and_no_handler envX mNoHandler).2 rfl
     (by decide) rfl⟩

/-! ## Theorems: identity resolution (C3) -/

/-- A prefix of resolvers none of which delivers a document is skipped by the
resolution loop. -/
theorem resolveChain_append_skip (did : String) (rs1 rs2 : List DidResolverFn)
    (h : ∀ r ∈ rs1, (r did).returnsDoc = false) :
    resolveChain did (rs1 ++ rs2) = resolveChain did rs2 := by
  induction rs1 with
  | nil => rfl
  | cons r rest ih =>
    have hr := h r (by simp)
    have hrest : ∀ r' ∈ rest, (r' did).returnsDoc = false := fun r' hm => h r' (by simp [hm])
    cases hout : r did with
    | doc d => simp [ResolverOutcome.returnsDoc, hout] at hr
    | err => simp [resolveChain, hout, ih hrest]
    | empty => simp [resolveChain, hout, ih hrest]

/-- A chain in which no resolver delivers a document throws
`DOCUMENT_RESOLUTION_ERROR`. -/
theorem resolveChain_exhausted (did : String) (rs : List DidResolverFn)
    (h : ∀ r ∈ rs, (r did).returnsDoc = false) :
    resolveChain did rs = .error .DOCUMENT_RESOLUTION_ERROR := by
  have := resolveChain_append_skip did rs [] h
  simpa [resolveChain] using this

/-- C3.  The combined resolver tries the configured resolvers in list order,
swallowing thrown errors and falsy results: the first resolver to deliver a
document wins; `DOCUMENT_RESOLUTION_ERROR` is thrown only once every resolver
in the chain has been tried; and an empty resolver list is replaced by the
appended universal fallback resolver before resolution. -/
theorem combinedResolver_chain_order (uni : DidResolverFn)
    (rs rs1 rs2 : List DidResolverFn) (r : DidResolverFn) (did : String)
    (d : DidDocument) :
    ((∀ r' ∈ rs1, (r' did).returnsDoc = false) → r did = .doc d →
       resolveDidDocumet uni (rs1 ++ r :: rs2) did = .ok d)
    ∧ (rs ≠ [] → (∀ r' ∈ rs, (r' did).returnsDoc = false) →
       resolveDidDocumet uni rs did = .error .DOCUMENT_RESOLUTION_ERROR)
    ∧ resolveDidDocumet uni [] did = resolveChain did [uni] := by
  refine ⟨fun hskip hr => ?_, fun hne hall => ?_, ?_⟩
  · have hcons : resolveChain did (r :: rs2) = .ok d := by simp [resolveChain, hr]
    have hemp : (rs1 ++ r :: rs2).isEmpty = false := by
      cases rs1 <;> simp [List.isEmpty]
    simp [resolveDidDocumet, hemp, resolveChain_append_skip did rs1 (r :: rs2) hskip, hcons]
  · have hemp : rs.isEmpty = false := by
      cases rs with
      | nil => exact absurd rfl hne
      | cons a l => simp [List.isEmpty]
    simp [resolveDidDocumet, hemp, resolveChain_exhausted did rs hall]
  · simp [resolveDidDocumet, List.isEmpty, List.concat]

/-- A document returned by one of the concrete test resolvers below. -/
def docW : DidDocument :=
  { id := "did:example:winner" }

/-- A resolver collaborator that always throws. -/
def resolverThrows : DidResolverFn := fun _ => .err

/-- A resolver collaborator that always resolves to nothing. -/
def resolverEmpty : DidResolverFn := fun _ => .empty

/-- A resolver collaborator that always delivers `docW`. -/
def resolverWins : DidResolverFn := fun _ => .doc docW

/-- Witness for C3: with a throwing resolver and an empty-handed resolver
ahead of a successful one, resolution returns the successful resolver's
document; with only failing resolvers it throws
`DOCUMENT_RESOLUTION_ERROR`; with no resolver the appended universal
fallback resolves. -/
theorem combinedResolver_chain_order_witness :
    resolveDidDocumet resolverWins
        ([resolverThrows, resolverEmpty] ++ resolverWins :: []) "did:example:1" = .ok docW
    ∧ resolveDidDocumet resolverWins [resolverThrows, resolverEmpty] "did:example:1" =
        .error .DOCUMENT_RESOLUTION_ERROR
    ∧ resolveDidDocumet resolverWins [] "did:example:1" = resolveChain "did:example:1" [resolverWins] :=
  ⟨(combinedResolver_chain_order resolverWins [] [resolverThrows, resolverEmpty] []
      resolverWins "did:example:1" docW).1 (by decide) rfl,
   ((combinedResolver_chain_order resolverWins [resolverThrows, resolverEmpty] [] []
      resolverWins "did:example:1" docW).2).1 (by simp) (by decide),
   ((combinedResolver_chain_order resolverWins [] [] [] resolverWins
      "did:example:1" docW).2).2⟩

/-! ## Theorems: `addSigningParams` (C2, C5, C9, C10) -/

/-- The only `SigningInfo` one loop iteration can produce is the one the
source pushes: the document key's `alg` and `id`, the caller's key string and
the trial format. -/
theorem tryCombination_some (env : CryptoEnv) (key : String)
    (k : DidVerificationKey) (f : KEY_FORMATS) (si : SigningInfo)
    (h : tryCombination env key k f = some si) :
    si = { alg := k.alg, kid := k.id, key := key, format := f } := by
  unfold tryCombination at h
  split at h <;> (try split at h) <;> simp_all

/-- A successful trial records the document key's algorithm and id: the
`SigningInfo` pushed by `addSigningParams` always carries `didPublicKey.alg`
and `didPublicKey.id`, whatever trial format succeeded. -/
theorem firstFormatMatch_alg_kid (env : CryptoEnv) (key : String)
    (k : DidVerificationKey) (fs : List KEY_FORMATS) (si : SigningInfo)
    (h : firstFormatMatch env key k fs = some si) :
    si.alg = k.alg ∧ si.kid = k.id ∧ si.key = key := by
  induction fs with
  | nil => simp [firstFormatMatch] at h
  | cons f rest ih =>
    rw [firstFormatMatch] at h
    cases hc : tryCombination env key k f with
    | none => rw [hc] at h; exact ih h
    | some si2 =>
      rw [hc] at h
      cases h
      rw [tryCombination_some env key k f si hc]
      exact ⟨rfl, rfl, rfl⟩

/-- As `firstFormatMatch_alg_kid`, for the full format list. -/
theorem keyMatches_alg_kid (env : CryptoEnv) (key : String)
    (k : DidVerificationKey) (si : SigningInfo)
    (h : keyMatches env key k = some si) :
    si.alg = k.alg ∧ si.kid = k.id ∧ si.key = key :=
  firstFormatMatch_alg_kid env key k keyFormatsList si h

/-- Document keys that match under no format are skipped by the outer loop. -/
theorem findMatch_append_skip (env : CryptoEnv) (key : String)
    (ks1 ks2 : List DidVerificationKey)
    (h : ∀ k ∈ ks1, keyMatches env key k = none) :
    findMatch env key (ks1 ++ ks2) = findMatch env key ks2 := by
  induction ks1 with
  | nil => rfl
  | cons k rest ih =>
    have hk := h k (by simp)
    have hrest : ∀ k' ∈ rest, keyMatches env key k' = none :=
      fun k' hm => h k' (by simp [hm])
    simp [findMatch, hk, ih hrest]

/-- If no document key matches under any format, the outer loop exhausts. -/
theorem findMatch_none (env : CryptoEnv) (key : String)
    (ks : List DidVerificationKey)
    (h : ∀ k ∈ ks, keyMatches env key k = none) :
    findMatch env key ks = none := by
  have := findMatch_append_skip env key ks [] h
  simpa [findMatch] using this

/-- A document key whose family is not RSA, EC or OKP matches under no
format: the `switch`'s `default: continue` skips it before any construction. -/
theorem keyMatches_oct (env : CryptoEnv) (key : String)
    (k : DidVerificationKey) (hk : k.kty = .oct) :
    keyMatches env key k = none := by
  suffices h : ∀ fs, firstFormatMatch env key k fs = none from h keyFormatsList
  intro fs
  induction fs with
  | nil => rfl
  | cons f rest ih => simp [firstFormatMatch, tryCombination, hk, ih]

/-- A trial that throws and a trial whose `checkKeyPair` answers `false` are
indistinguishable to one loop iteration. -/
theorem tryCombination_demote (env : CryptoEnv) (key : String)
    (k : DidVerificationKey) (f : KEY_FORMATS) :
    tryCombination (demoteThrew env) key k f = tryCombination env key k f := by
  cases hk : k.kty <;>
    simp only [tryCombination, demoteThrew, hk] <;>
    cases env.trial key k f <;> rfl

/-- As `tryCombination_demote`, lifted to the whole matching search. -/
theorem findMatch_demote (env : CryptoEnv) (key : String)
    (ks : List DidVerificationKey) :
    findMatch (demoteThrew env) key ks = findMatch env key ks := by
  induction ks with
  | nil => rfl
  | cons k rest ih =>
    have hf : ∀ fs, firstFormatMatch (demoteThrew env) key k fs =
        firstFormatMatch env key k fs := by
      intro fs
      induction fs with
      | nil => rfl
      | cons f frest ihf => simp [firstFormatMatch, tryCombination_demote, ihf]
    simp [findMatch, keyMatches, hf keyFormatsList, ih]

/-- C2.  When the authentication key set decomposes into a prefix of keys the
private key matches under no format, followed by a first matching key `k`,
`addSigningParams` returns exactly `k.id` and pushes a `SigningInfo` whose
algorithm is the document `CanonicalKey`'s `alg` (and whose `kid` is `k.id`),
not a value produced by the trial loop. -/
theorem addSigningParams_first_match_wins (env : CryptoEnv)
    (ks1 ks2 : List DidVerificationKey) (k : DidVerificationKey)
    (st : ProviderState) (key : String) (si : SigningInfo)
    (h1 : ∀ k' ∈ ks1, keyMatches env (normalizeKey env key) k' = none)
    (h2 : keyMatches env (normalizeKey env key) k = some si) :
    addSigningParams env (ks1 ++ k :: ks2) st key =
      (.ok k.id, { st with signing_info_set := st.signing_info_set.concat si })
    ∧ si.alg = k.alg ∧ si.kid = k.id := by
  obtain ⟨halg, hkid, -⟩ := keyMatches_alg_kid env (normalizeKey env key) k si h2
  refine ⟨?_, halg, hkid⟩
  have hskip := findMatch_append_skip env (normalizeKey env key) ks1 (k :: ks2) h1
  simp [addSigningParams, hskip, findMatch, h2, hkid]

/-- C5.  A private key that matches no authentication key under any of the
supported formats makes `addSigningParams` fail with the no-matching-key
error (`ERRORS.NO_PUBLIC_KEY`), the state unchanged. -/
theorem addSigningParams_exhausted_fails (env : CryptoEnv)
    (ks : List DidVerificationKey) (st : ProviderState) (key : String)
    (h : ∀ k ∈ ks, keyMatches env (normalizeKey env key) k = none) :
    addSigningParams env ks st key = (.error .NO_PUBLIC_KEY, st) := by
  simp [addSigningParams, findMatch_none env (normalizeKey env key) ks h]

/-- C9.  Every `addSigningParams` call is atomic on the signing-info set: a
successful call returns the pushed entry's `kid` and appends exactly that one
entry at the tail (everything else, the resolution flag included, is
unchanged), and a failing call returns the state exactly as it was. -/
theorem addSigningParams_atomic (env : CryptoEnv)
    (ks : List DidVerificationKey) (st : ProviderState) (key : String) :
    (∃ si, addSigningParams env ks st key =
       (.ok si.kid, { st with signing_info_set := st.signing_info_set.concat si }))
    ∨ addSigningParams env ks st key = (.error .NO_PUBLIC_KEY, st) := by
  cases h : findMatch env (normalizeKey env key) ks with
  | some si => exact .inl ⟨si, by simp [addSigningParams, h]⟩
  | none => exact .inr (by simp [addSigningParams, h])

/-- C10.  The trial loop never propagates per-combination failures: a document
key outside the RSA/EC/OKP families is skipped outright, a combination that
throws behaves exactly like one whose `checkKeyPair` answers `false`, and the
only error the call can produce is `NO_PUBLIC_KEY`. -/
theorem addSigningParams_swallows_trial_failures (env : CryptoEnv)
    (ks : List DidVerificationKey) (k : DidVerificationKey)
    (st : ProviderState) (key : String) (e : Err) :
    (k.kty = .oct →
       addSigningParams env (k :: ks) st key = addSigningParams env ks st key)
    ∧ addSigningParams (demoteThrew env) ks st key = addSigningParams env ks st key
    ∧ ((addSigningParams env ks st key).1 = .error e → e = .NO_PUBLIC_KEY) := by
  refine ⟨fun hk => ?_, ?_, fun he => ?_⟩
  · simp [addSigningParams, findMatch, keyMatches_oct env _ k hk]
  · have hn : normalizeKey (demoteThrew env) key = normalizeKey env key := rfl
    simp [addSigningParams, hn, findMatch_demote]
  · cases h : findMatch env (normalizeKey env key) ks with
    | some si => simp [addSigningParams, h] at he
    | none =>
      simp [addSigningParams, h] at he
      exact he.symm

/-- Concrete document keys for exercising the matcher: an OKP key, an RSA key
(whose trials all throw under `envC`), and a key of the unsupported `oct`
family. -/
def kOkp : DidVerificationKey :=
  { id := "did:example:abc#key-1", kty := .OKP, alg := .EdDSA,
    format := .BASE58, publicKey := .str "H3C2AVvL" }

/-- An RSA document key; under `envC` every trial against it throws. -/
def kRsa : DidVerificationKey :=
  { id := "did:example:abc#key-0", kty := .RSA, alg := .RS256,
    format := .PKCS8_PEM, publicKey := .str "-----BEGIN PUBLIC KEY-----" }

/-- A document key of the unsupported `oct` family. -/
def kOct : DidVerificationKey :=
  { id := "did:example:abc#key-2", kty := .oct, alg := .RS256,
    format := .HEX, publicKey := .str "deadbeef" }

/-- A concrete instantiation of `addSigningParams`'s external collaborators:
the string "zmulti" is the one multibase-encoded private key and normalises
to "privEd"; "privEd" pairs with OKP keys in BASE58 format; every trial
against an RSA key throws; everything else mismatches. -/
def envC : CryptoEnv :=
  { isMultibasePvtKey := fun s => s = "zmulti",
    getBase58fromMultibase := fun _ => "privEd",
    trial := fun key k f =>
      if key = "privEd" ∧ k.kty = .OKP ∧ f = .BASE58 then .matched
      else if k.kty = .RSA then .threw
      else .mismatch }

/-- An empty resolved provider state. -/
def st0 : ProviderState := { signing_info_set := [], resolved := true }

/-- The signing info `envC` makes `addSigningParams` record for `kOkp`. -/
def siOkp : SigningInfo :=
  { alg := .EdDSA, kid := "did:example:abc#key-1", key := "privEd", format := .BASE58 }

/-- Witness for C2: with the multibase key "zmulti" and the document keys
`[kOct, kOkp, kRsa]`, the first matching entry is `kOkp`; its `kid` is
returned and the recorded algorithm is `kOkp`'s EdDSA. -/
theorem addSigningParams_first_match_wins_witness :
    addSigningParams envC ([kOct] ++ kOkp :: [kRsa]) st0 "zmulti" =
      (.ok kOkp.id, { st0 with signing_info_set := st0.signing_info_set.concat siOkp })
    ∧ siOkp.alg = kOkp.alg ∧ siOkp.kid = kOkp.id :=
  addSigningParams_first_match_wins envC [kOct] [kRsa] kOkp st0 "zmulti" siOkp
    (by decide) (by decide)

/-- Witness for C5: a private key matching no document key fails with
`NO_PUBLIC_KEY` and leaves the state untouched. -/
theorem addSigningParams_exhausted_fails_witness :
    addSigningParams envC [kOct, kOkp, kRsa] st0 "wrong-key" =
      (.error .NO_PUBLIC_KEY, st0) :=
  addSigningParams_exhausted_fails envC [kOct, kOkp, kRsa] st0 "wrong-key"
    (by decide)

/-- Witness for C10: the `oct` key is skipped, demoting thrown trials to
mismatches changes nothing, and the exhausted loop's error is
`NO_PUBLIC_KEY`. -/
theorem addSigningParams_swallows_trial_failures_witness :
    (addSigningParams envC (kOct :: [kRsa]) st0 "wrong-key" =
       addSigningParams envC [kRsa] st0 "wrong-key")
    ∧ addSigningParams (demoteThrew envC) [kRsa] st0 "wrong-key" =
        addSigningParams envC [kRsa] st0 "wrong-key"
    ∧ Err.NO_PUBLIC_KEY = Err.NO_PUBLIC_KEY :=
  ⟨(addSigningParams_swallows_trial_failures envC [kRsa] kOct st0 "wrong-key"
      .NO_PUBLIC_KEY).1 rfl,
   (addSigningParams_swallows_trial_failures envC [kRsa] kOct st0 "wrong-key"
      .NO_PUBLIC_KEY).2.1,
   (addSigningParams_swallows_trial_failures envC [kRsa] kOct st0 "wrong-key"
      .NO_PUBLIC_KEY).2.2 rfl⟩

/-! ## Theorems: `removeSigningParams` and the response guards (C7, C8) -/

/-- C8.  `removeSigningParams(kid)` keeps every entry whose `kid` differs
(in their original order: the remaining set is a sublist), drops exactly the
entries carrying `kid`, is a no-op when no entry carries `kid`, and leaves
the rest of the provider state (the resolution flag) unchanged. -/
theorem removeSigningParams_filters_kid (st : ProviderState) (kid : String) :
    (∀ si ∈ st.signing_info_set, si.kid ≠ kid →
       si ∈ (removeSigningParams st kid).signing_info_set)
    ∧ (∀ si ∈ (removeSigningParams st kid).signing_info_set,
       si ∈ st.signing_info_set ∧ si.kid ≠ kid)
    ∧ (removeSigningParams st kid).signing_info_set.Sublist st.signing_info_set
    ∧ ((∀ si ∈ st.signing_info_set, si.kid ≠ kid) → removeSigningParams st kid = st)
    ∧ (removeSigningParams st kid).resolved = st.resolved := by
  refine ⟨fun si hm hne => ?_, fun si hm => ?_, ?_, fun hall => ?_, rfl⟩
  · simp [removeSigningParams, List.mem_filter, hm, hne]
  · simpa [removeSigningParams, List.mem_filter] using hm
  · exact List.filter_sublist _
  · have hfe : st.signing_info_set.filter (fun s => s.kid ≠ kid) = st.signing_info_set :=
      List.filter_eq_self.mpr (fun a ha => by simpa using hall a ha)
    unfold removeSigningParams
    rw [hfe]

/-- A second signing entry, with a distinct `kid`, for the removal witness. -/
def siOther : SigningInfo :=
  { alg := .ES256K, kid := "did:example:abc#key-9", key := "privK1", format := .HEX }

/-- Witness for C8: removing `siOkp`'s kid from `[siOkp, siOther]` keeps
`siOther`, drops every entry with that kid, and removing an absent kid is a
no-op. -/
theorem removeSigningParams_filters_kid_witness :
    siOther ∈ (removeSigningParams
        { signing_info_set := [siOkp, siOther], resolved := true }
        siOkp.kid).signing_info_set
    ∧ removeSigningParams
        { signing_info_set := [siOkp, siOther], resolved := true }
        "did:example:absent#kid" =
      { signing_info_set := [siOkp, siOther], resolved := true } :=
  ⟨(removeSigningParams_filters_kid
      { signing_info_set := [siOkp, siOther], resolved := true } siOkp.kid).1
      siOther (by decide) (by decide),
   (removeSigningParams_filters_kid
      { signing_info_set := [siOkp, siOther], resolved := true }
      "did:example:absent#kid").2.2.2.1 (by decide)⟩

/-- C7.  Both response generators fail with `NO_SIGNING_INFO` on an empty
signing-info set (whatever the resolution state), fail with
`UNRESOLVED_IDENTITY` on a non-empty set when the identity is unresolved,
and otherwise return the entry selected by the random draw — every index of
the set selects exactly its entry, so the draw ranges over the whole set.
Removing the `kid` carried by every entry and then generating fails with
`NO_SIGNING_INFO`. -/
theorem generateResponse_guards (st : ProviderState) (pick i : Nat)
    (vps : VPData) (kid : String) :
    (st.signing_info_set = [] →
       generateResponse st pick = .error .NO_SIGNING_INFO
       ∧ generateResponseWithVPData st pick vps = .error .NO_SIGNING_INFO)
    ∧ (st.signing_info_set ≠ [] → st.resolved = false →
       generateResponse st pick = .error .UNRESOLVED_IDENTITY
       ∧ generateResponseWithVPData st pick vps = .error .UNRESOLVED_IDENTITY)
    ∧ (st.resolved = true → ∀ h : i < st.signing_info_set.length,
       generateResponse st i = .ok (st.signing_info_set.get ⟨i, h⟩)
       ∧ generateResponseWithVPData st i vps = .ok (st.signing_info_set.get ⟨i, h⟩, vps))
    ∧ ((∀ si ∈ st.signing_info_set, si.kid = kid) →
       generateResponse (removeSigningParams st kid) pick = .error .NO_SIGNING_INFO) := by
  refine ⟨fun hemp => ?_, fun hne hres => ?_, fun hres h => ?_, fun hall => ?_⟩
  · simp [generateResponse, generateResponseWithVPData, hemp]
  · have hl : 0 < st.signing_info_set.length := List.length_pos.mpr hne
    simp [generateResponse, generateResponseWithVPData, hl, hres]
  · have hl : 0 < st.signing_info_set.length := Nat.lt_of_le_of_lt (Nat.zero_le i) h
    simp [generateResponse, generateResponseWithVPData, hl, hres, Nat.mod_eq_of_lt h]
  · have hfil : List.filter (fun s => !decide (s.kid = kid)) st.signing_info_set = [] := by
      rw [List.filter_eq_nil_iff]
      intro a ha
      simp [hall a ha]
    simp [generateResponse, removeSigningParams, hfil]

/-- Witness for C7: the empty set refuses with `NO_SIGNING_INFO`; the
unresolved provider refuses with `UNRESOLVED_IDENTITY`; the resolved one-key
provider returns its single entry for draw 0; removing the only kid and
generating refuses with `NO_SIGNING_INFO`. -/
theorem generateResponse_guards_witness :
    generateResponse st0 5 = .error .NO_SIGNING_INFO
    ∧ generateResponse { signing_info_set := [siOkp], resolved := false } 5 =
        .error .UNRESOLVED_IDENTITY
    ∧ generateResponse { signing_info_set := [siOkp], resolved := true } 0 = .ok siOkp
    ∧ generateResponse
        (removeSigningParams { signing_info_set := [siOkp], resolved := true } siOkp.kid)
        3 = .error .NO_SIGNING_INFO :=
  ⟨((generateResponse_guards st0 5 0 ⟨"vp", "ivp"⟩ "k").1 rfl).1,
   ((generateResponse_guards { signing_info_set := [siOkp], resolved := false }
      5 0 ⟨"vp", "ivp"⟩ "k").2.1 (by decide) rfl).1,
   ((generateResponse_guards { signing_info_set := [siOkp], resolved := true }
      5 0 ⟨"vp", "ivp"⟩ "k").2.2.1 rfl (by decide)).1,
   (generateResponse_guards { signing_info_set := [siOkp], resolved := true }
      3 0 ⟨"vp", "ivp"⟩ siOkp.kid).2.2.2 (by decide)⟩

end DidSiop
